import Mathlib

/-!
Shallow embedding of the `acorn image sign` CLI command
(`ImageSign.Run`, `getPrivateKeyPass` and their helpers) and of the
spec's key-resolution / passphrase / annotation-assembly contracts.

External collaborators (filesystem stat, cosign key loaders, registry
lookup, submission service, terminal) are modelled as oracle fields of
an `Env` record; the command body is translated statement by statement
into a pure function that also emits a trace of observable events
(stat calls, signer-construction attempts, key imports, passphrase
provider invocations), so that claims about "never stats the
filesystem", "retried exactly once", "invoked lazily" become
statements about the trace.
-/

namespace ImageSignModel

abbrev Err := String

/-- Opaque handle standing for a `sigsig.SignerVerifier`. -/
abbrev Signer := Nat

/-- Opaque handle standing for a `crypto.PublicKey`. -/
abbrev PubKey := Nat

/-- Go `map[string]string`, modelled as an association list. -/
abbrev AnnMap := List (String × String)

/-! ### Go string primitives used by the source -/

/-- `startsWithChars sub s` : does `s` start with `sub`? -/
def startsWithChars : List Char → List Char → Bool
  | [], _ => true
  | _ :: _, [] => false
  | c :: cs, d :: ds => c == d && startsWithChars cs ds

/-- `hasSubChars s sub` : does `s` contain `sub` as a contiguous run? -/
def hasSubChars : List Char → List Char → Bool
  | [], sub => startsWithChars sub []
  | c :: t, sub => startsWithChars sub (c :: t) || hasSubChars t sub

/-- Go `strings.Contains(s, sub)`. -/
def goContains (s sub : String) : Bool :=
  hasSubChars s.toList sub.toList

/-- Go `strings.Trim(s, "\n")`: drop leading and trailing newline characters. -/
def goTrimNL (s : String) : List Char :=
  ((s.toList.dropWhile (· == '\n')).reverse.dropWhile (· == '\n')).reverse

/-- Go `len(s)` (byte length of the UTF-8 encoding). -/
def goLen (s : String) : Nat := s.utf8ByteSize

/-!
### Key classification (source line 100)

`if len(a.Key) > 255 || strings.Contains(strings.Trim(a.Key, "\n"), "\n")`
-/

/-- The raw-key-material classification test of `ImageSign.Run`:
the key string is longer than 255 bytes, or still contains a newline
after trimming newlines from both ends. -/
def rawClassified (key : String) : Bool :=
  decide (goLen key > 255) || (goTrimNL key).contains '\n'

/-! ### Oracles: external collaborators of the command -/

/-- Result of `os.Stat(a.Key)` as the source observes it:
success (with the `IsDir` bit), an error satisfying `os.IsNotExist`,
or any other error (with its message). -/
inductive StatResult where
  | ok (isDir : Bool)
  | errNotExist
  | errOther (msg : Err)
deriving DecidableEq

/-- A parsed image reference (`name.Reference`): its `String()` form and
the repository context used to build the target digest. -/
structure Ref where
  str : String
  ctx : String
deriving DecidableEq

/-- The fields of `client.ImageDetails` the command reads:
`AppImage.Digest` and `AppImage.ID`. -/
structure ImageDetails where
  digest : String
  id : String
deriving DecidableEq

/-- `ref.Context().Digest(details.AppImage.Digest)`. -/
structure Digest where
  repo : String
  dg : String
deriving DecidableEq

/-- Result of `acornsign.ImportKeyPair`: new key bytes and the
(possibly absent) passphrase reported by `keyBytes.Password()`. -/
structure ImportedKey where
  privateBytes : String
  password : Option String
deriving DecidableEq

/-- Complaint categories of the label-selector validation of annotation
entries; `valueTooLong` and `valueRegexp` are the two categories the
caller filters out. -/
inductive LabelErrKind where
  | keyInvalid
  | valueTooLong
  | valueRegexp
deriving DecidableEq

/-- The environment of one invocation: every external collaborator the
command calls, as a pure oracle. -/
structure Env where
  /-- `a.client.CreateDefault()` -/
  createDefault : Except Err Unit
  /-- `getAuthForImage(...)` -/
  getAuth : Except Err Unit
  /-- `name.ParseReference(imageName)`; the source discards the error,
  so only success (`some`) versus failure (`none`) is observable. -/
  parseRef : Option Ref
  /-- `c.ImageDetails(...)` -/
  imageDetails : Except Err ImageDetails
  /-- `os.LookupEnv("ACORN_IMAGE_SIGN_PASSWORD")` -/
  envPass : Option String
  /-- `isTerm()`: stdin is a character device -/
  stdinIsTerm : Bool
  /-- `prompt.Password(...)` -/
  promptPass : Except Err String
  /-- `io.ReadAll(os.Stdin)` -/
  stdinAll : Except Err String
  /-- validation complaints the selector builder raises for one
  annotation entry (key, value) -/
  labelComplaints : String → String → List LabelErrKind
  /-- `os.Stat(a.Key)` -/
  statKey : StatResult
  /-- `cosign.LoadPrivateKey(bytes, pass)` -/
  loadPrivateKey : String → Option String → Except Err Signer
  /-- `signature.SignerVerifierFromKeyRef(ctx, key, pf)`; the callback
  `pf` always returns the already-acquired passphrase, so the oracle
  receives it directly. -/
  signerFromKeyRef : String → Option String → Except Err Signer
  /-- `acornsign.ImportKeyPair(a.Key, pass)` -/
  importKeyPair : String → Option String → Except Err ImportedKey
  /-- `tags.IsLocalReference(signedName)` -/
  isLocalReference : String → Bool
  /-- `acornsign.GetDefaultSignatureAnnotations(signedName)` -/
  defaultAnns : String → AnnMap
  /-- `sigsig.SignImage(signer, digest, map)` returning (payload, signature bytes) -/
  signImage : Signer → Digest → AnnMap → Except Err (String × String)
  /-- `sigSigner.PublicKey()` -/
  publicKey : Signer → Except Err (Option PubKey)
  /-- `acornsign.PemEncodeCryptoPublicKey(pub)` -/
  pemEncode : PubKey → Except Err String
  /-- `base64.StdEncoding.EncodeToString` -/
  b64 : String → String
  /-- `c.ImageSign(ctx, imageName, payload, sigB64, opts)`, returning the
  signature digest on success -/
  submit : String → String → String → Option String → Except Err String

/-! ### Observable events -/

/-- Observable actions of one invocation, in order of occurrence. -/
inductive Event where
  /-- `getPrivateKeyPass()` was invoked -/
  | calledGetPass
  /-- `os.Stat(a.Key)` was invoked -/
  | statted
  /-- `cosign.LoadPrivateKey(bytes, pass)` was attempted -/
  | loadRaw (bytes : String) (pass : Option String)
  /-- `signature.SignerVerifierFromKeyRef` was attempted on `path` -/
  | loadFromFile (path : String)
  /-- `acornsign.ImportKeyPair(src, pass)` was invoked -/
  | imported (src : String)
  /-- the annotation set was assembled, keyed on `signedName` -/
  | assembled (signedName : String)
deriving DecidableEq

/-! ### Passphrase provider (source lines 188-198) -/

/-- `getPrivateKeyPass`: environment variable first (verbatim, even when
empty), then interactive prompt, then read all of stdin. -/
def getPrivateKeyPass (env : Env) : Except Err String :=
  match env.envPass with
  | some pw => .ok pw
  | none =>
    if env.stdinIsTerm then env.promptPass else env.stdinAll

/-! ### Annotation validation (source lines 53-57) -/

/-- Modelled from the spec: `signatureannotations.GenerateSelector` with
`IgnoreInvalidFieldErrors(LabelValueMaxLengthErrMsg, LabelValueRegexpErrMsg)`
(package `pkg/imageselector/signatures/annotations`, not under `src/`).
Validates every annotation entry against label-selector syntax,
collecting complaints, but filters out the value-too-long and
value-fails-pattern categories; any remaining (structural key)
complaint is fatal. -/
def generateSelector (complaints : String → String → List LabelErrKind)
    (m : Option AnnMap) : Except Err Unit :=
  let collected := (m.getD []).foldr (fun kv acc => complaints kv.1 kv.2 ++ acc) []
  let remaining := collected.filter
    (fun c => !(c == LabelErrKind.valueTooLong || c == LabelErrKind.valueRegexp))
  if remaining.isEmpty then .ok () else .error "invalid annotation key"

/-! ### Key resolution (source lines 97-135) -/

/-- Outcome of the initial signer-construction attempt. A `constructErr`
is an error from `cosign.LoadPrivateKey` or `SignerVerifierFromKeyRef`
and flows into the unsupported-PEM recovery check; a `directErr`
(stat failure, directory) is returned immediately. -/
inductive InitResult where
  | ok (s : Signer)
  | constructErr (e : Err)
  | directErr (e : Err)
deriving DecidableEq

/-- Lift a loader result into `InitResult`. -/
def liftLoad : Except Err Signer → InitResult
  | .ok s => .ok s
  | .error e => .constructErr e

/-- Source lines 100-120: classify the key and make the first
signer-construction attempt. -/
def initialSigner (key : String) (pass : Option String) (env : Env) :
    InitResult × List Event :=
  if rawClassified key then
    -- not a file (too long or embedded newline): load from raw key data
    (liftLoad (env.loadPrivateKey key pass), [.loadRaw key pass])
  else
    match env.statKey with
    | .ok isDir =>
      if isDir then
        (.directErr "invalid key file: is directory", [.statted])
      else
        (liftLoad (env.signerFromKeyRef key pass), [.statted, .loadFromFile key])
    | .errNotExist =>
      -- os.IsNotExist(err) short-circuits the || condition
      (liftLoad (env.loadPrivateKey key pass), [.statted, .loadRaw key pass])
    | .errOther msg =>
      -- note: the source tests strings.Contains("\n", a.Key), arguments swapped
      if goContains "\n" key then
        (liftLoad (env.loadPrivateKey key pass), [.statted, .loadRaw key pass])
      else
        (.directErr ("failed to stat key file: " ++ msg), [.statted])

/-- Source lines 122-135: on an unsupported-PEM construction error, the
command imports the key pair and retries construction exactly once. -/
def resolveSigner (key : String) (pass : Option String) (env : Env) :
    Except Err Signer × List Event :=
  match initialSigner key pass env with
  | (.ok s, tr) => (.ok s, tr)
  | (.directErr e, tr) => (.error e, tr)
  | (.constructErr e, tr) =>
    if !goContains e "unsupported pem type" then
      (.error ("failed to create signer from private key: " ++ e), tr)
    else
      match env.importKeyPair key pass with
      | .error e2 =>
        (.error ("failed to import private key: " ++ e2), tr ++ [.imported key])
      | .ok kb =>
        match env.loadPrivateKey kb.privateBytes kb.password with
        | .error e3 =>
          (.error ("failed to create signer from imported private key: " ++ e3),
            tr ++ [.imported key, .loadRaw kb.privateBytes kb.password])
        | .ok s =>
          (.ok s, tr ++ [.imported key, .loadRaw kb.privateBytes kb.password])

/-! ### Annotation assembly (source lines 137-147) -/

/-- Go map assignment `m[k] = v`: replace the value at the key when it
is present (keys are unique in a Go map), append the pair otherwise. -/
def mapSet : AnnMap → String → String → AnnMap
  | [], k, v => [(k, v)]
  | p :: t, k, v => if p.1 == k then (k, v) :: t else p :: mapSet t k v

/-- Go map lookup `m[k]`. -/
def mapGet : AnnMap → String → Option String
  | [], _ => none
  | p :: t, k => if p.1 == k then some p.2 else mapGet t k

/-- Source lines 142-147: start from the default set and write every
override entry on top of it. -/
def mergeAnns (defaults : AnnMap) (overrides : Option AnnMap) : AnnMap :=
  match overrides with
  | none => defaults
  | some ovs => ovs.foldl (fun acc kv => mapSet acc kv.1 kv.2) defaults

/-- Source lines 137-141: the signed identity keyed into the default
signature set. -/
def signedNameOf (env : Env) (r : Ref) (details : ImageDetails) : String :=
  let signedName := r.str
  if env.isLocalReference signedName then details.id else signedName

/-! ### The command body -/

/-- The CLI command's receiver: the `--key` and `--annotation` flags
(a `nil` Go map is `none`). -/
structure ImageSign where
  key : String
  anns : Option AnnMap

/-- Outcome of one invocation: a returned signature digest, a returned
error, or a reachable runtime panic (nil dereference). -/
inductive Outcome where
  | ok (sigDigest : String)
  | err (e : Err)
  | crash (msg : String)
deriving DecidableEq

/-- Source lines 149-183: the steps after a signer is obtained —
sign the digest, base64-encode the signature, encode the public key
when present, submit. These call no further trace-relevant
collaborator, so `run` records their events separately. -/
def finishRun (a : ImageSign) (imageName : String) (env : Env) (r : Ref)
    (details : ImageDetails) (s : Signer) : Outcome :=
  let targetDigest : Digest := ⟨r.ctx, details.digest⟩
  let signedName := signedNameOf env r details
  let anns := mergeAnns (env.defaultAnns signedName) a.anns
  match env.signImage s targetDigest anns with
  | .error e => .err e
  | .ok (payload, sigBytes) =>
    let sigB64 := env.b64 sigBytes
    match env.publicKey s with
    | .error e => .err e
    | .ok none =>
      match env.submit imageName payload sigB64 none with
      | .error e => .err e
      | .ok sig => .ok sig
    | .ok (some p) =>
      match env.pemEncode p with
      | .error e => .err e
      | .ok pem =>
        match env.submit imageName payload sigB64 (some pem) with
        | .error e => .err e
        | .ok sig => .ok sig

/-- `ImageSign.Run`, translated statement by statement; returns the
outcome together with the trace of observable events. -/
def run (a : ImageSign) (imageName : String) (env : Env) : Outcome × List Event :=
  if a.key = "" then (.err "key is required", [])
  else
    match generateSelector env.labelComplaints a.anns with
    | .error e => (.err ("failed to parse provided annotations: " ++ e), [])
    | .ok _ =>
      match env.createDefault with
      | .error e => (.err e, [])
      | .ok _ =>
        match env.getAuth with
        | .error e => (.err e, [])
        | .ok _ =>
          -- ref, _ := name.ParseReference(imageName): error discarded
          let ref := env.parseRef
          match env.imageDetails with
          | .error e => (.err e, [])
          | .ok details =>
            -- targetDigest := ref.Context().Digest(...): nil ref panics here
            match ref with
            | none => (.crash "nil reference dereference", [])
            | some r =>
              match getPrivateKeyPass env with
              | .error e => (.err e, [.calledGetPass])
              | .ok pw =>
                -- nothing instead of empty pass
                let pass : Option String := if pw = "" then none else some pw
                match resolveSigner a.key pass env with
                | (.error e, tr) => (.err e, .calledGetPass :: tr)
                | (.ok s, tr) =>
                  (finishRun a imageName env r details s,
                    .calledGetPass :: tr ++ [.assembled (signedNameOf env r details)])

/-! ### Trace accounting -/

/-- Is the event a signer-construction attempt? -/
def isAttempt : Event → Bool
  | .loadRaw _ _ => true
  | .loadFromFile _ => true
  | _ => false

/-- Number of signer-construction attempts recorded in a trace. -/
def attempts (tr : List Event) : Nat := (tr.filter isAttempt).length

/-- Is the event a key-pair import? -/
def isImport : Event → Bool
  | .imported _ => true
  | _ => false

/-- Number of key-pair imports recorded in a trace. -/
def imports (tr : List Event) : Nat := (tr.filter isImport).length

/-! ### A base environment for concrete evaluations -/

/-- A benign concrete environment: everything succeeds. -/
def baseEnv : Env where
  createDefault := .ok ()
  getAuth := .ok ()
  parseRef := some ⟨"registry.example/app:v1", "registry.example/app"⟩
  imageDetails := .ok ⟨"sha256:abc", "deadbeefcafe"⟩
  envPass := none
  stdinIsTerm := false
  promptPass := .ok ""
  stdinAll := .ok ""
  labelComplaints := fun _ _ => []
  statKey := .errNotExist
  loadPrivateKey := fun _ _ => .ok 1
  signerFromKeyRef := fun _ _ => .ok 2
  importKeyPair := fun _ _ => .ok ⟨"imported-bytes", none⟩
  isLocalReference := fun _ => false
  defaultAnns := fun n => [("tag", n)]
  signImage := fun _ _ _ => .ok ("payload", "sigbytes")
  publicKey := fun _ => .ok none
  pemEncode := fun _ => .ok "pem"
  b64 := fun s => s
  submit := fun _ _ _ _ => .ok "sha256:sigdigest"

/-! ## Claims -/

/-- C2: for every key input classified raw by the source's test
(byte length over 255, or a newline surviving the newline trim), the
signer is constructed by `cosign.LoadPrivateKey` directly from the
input bytes, and the trace is exactly one raw-load attempt — in
particular the filesystem is never stat'ed. -/
theorem c2_long_or_multiline_key_is_raw (key : String) (pass : Option String)
    (env : Env) (h : rawClassified key = true) :
    initialSigner key pass env =
      (liftLoad (env.loadPrivateKey key pass), [Event.loadRaw key pass]) := by
  simp [initialSigner, h]

theorem c2_witness :
    rawClassified "a\nb" = true ∧
    initialSigner "a\nb" none baseEnv =
      (liftLoad (baseEnv.loadPrivateKey "a\nb" none), [Event.loadRaw "a\nb" none]) :=
  ⟨by decide, c2_long_or_multiline_key_is_raw "a\nb" none baseEnv (by decide)⟩

/-- C4: for every key input that is not classified raw and whose stat
fails with a not-exist error, resolution falls back to constructing the
signer from the input bytes (raw key material) instead of returning an
error. -/
theorem c4_not_exist_falls_back_to_raw (key : String) (pass : Option String)
    (env : Env) (hclass : rawClassified key = false)
    (hstat : env.statKey = .errNotExist) :
    initialSigner key pass env =
      (liftLoad (env.loadPrivateKey key pass),
        [Event.statted, Event.loadRaw key pass]) := by
  simp [initialSigner, hclass, hstat]

theorem c4_witness :
    rawClassified "mykey" = false ∧
    initialSigner "mykey" none baseEnv =
      (liftLoad (baseEnv.loadPrivateKey "mykey" none),
        [Event.statted, Event.loadRaw "mykey" none]) :=
  ⟨by decide, c4_not_exist_falls_back_to_raw "mykey" none baseEnv (by decide) rfl⟩

/-- Environment exhibiting the C1 defect: the stat of the key fails
with a non-not-exist error (permission denied). -/
def c1Env : Env :=
  { baseEnv with
    statKey := .errOther "permission denied"
    loadPrivateKey := fun _ _ => .ok 42 }

/-- C1 (code bug): the key `"\n"` is classified by stat (length 1, no
newline survives trimming), its stat fails with an error that is not
not-exist, yet — because the source tests `strings.Contains("\n", a.Key)`
with the arguments swapped — the command falls back to constructing a
raw-key signer instead of propagating the stat error. -/
theorem c1_stat_error_fallback_bug :
    rawClassified "\n" = false ∧
    c1Env.statKey = StatResult.errOther "permission denied" ∧
    initialSigner "\n" none c1Env =
      (InitResult.ok 42, [Event.statted, Event.loadRaw "\n" none]) := by
  exact ⟨by decide, rfl, by decide⟩

/-- Environment for C10: reference parsing fails (its error is
discarded by the source) while the image-details lookup succeeds. -/
def c10Env : Env := { baseEnv with parseRef := none }

/-- C10: with reference parsing failed and the image-details lookup
succeeding, building the target digest dereferences the nil reference:
the invocation crashes instead of returning an error. -/
theorem c10_nil_ref_crash :
    c10Env.imageDetails = Except.ok ⟨"sha256:abc", "deadbeefcafe"⟩ ∧
    run ⟨"mykey", none⟩ "not@a/valid::ref" c10Env =
      (Outcome.crash "nil reference dereference", []) :=
  ⟨rfl, by decide⟩

/-- C6: the passphrase provider returns the environment variable's
value verbatim whenever it is set — even to the empty string — for
every possible prompt and stdin content (so neither is consulted); with
the variable unset and stdin non-interactive, it returns exactly the
stdin read (all bytes to end-of-stream, no trimming). -/
theorem c6_passphrase_priority (env : Env) :
    (∀ s, env.envPass = some s →
      ∀ ps ss, getPrivateKeyPass { env with promptPass := ps, stdinAll := ss } = .ok s) ∧
    (env.envPass = none → env.stdinIsTerm = false →
      getPrivateKeyPass env = env.stdinAll) := by
  constructor
  · intro s hs ps ss
    simp [getPrivateKeyPass, hs]
  · intro h1 h2
    simp [getPrivateKeyPass, h1, h2]

theorem c6_witness :
    getPrivateKeyPass { { baseEnv with envPass := some "" } with
        promptPass := .ok "prompted", stdinAll := .ok "other" } = .ok "" ∧
    getPrivateKeyPass { baseEnv with stdinAll := .ok "hunter2\n" } = .ok "hunter2\n" :=
  ⟨(c6_passphrase_priority { baseEnv with envPass := some "" }).1 "" rfl
      (.ok "prompted") (.ok "other"),
    (c6_passphrase_priority { baseEnv with stdinAll := .ok "hunter2\n" }).2 rfl rfl⟩

/-- Environment for C3: the key is an existing regular file and the
file-based signer constructor succeeds identically for every
passphrase — no decryption is ever needed. -/
def c3Env : Env :=
  { baseEnv with
    statKey := .ok false
    signerFromKeyRef := fun _ _ => .ok 7 }

/-- C3 counterexample: on an invocation whose key is an existing file
loaded by a constructor that does not depend on the passphrase at all
(no decryption needed), the passphrase provider is still invoked — the
run even succeeds end to end with the provider called. -/
theorem c3_counterexample :
    c3Env.signerFromKeyRef = (fun _ _ => Except.ok 7) ∧
    Event.calledGetPass ∈ (run ⟨"mykey", none⟩ "img" c3Env).2 ∧
    (run ⟨"mykey", none⟩ "img" c3Env).1 = Outcome.ok "sha256:sigdigest" :=
  ⟨rfl, by decide, by decide⟩

/-- C3 amended: the passphrase provider is invoked eagerly, not lazily:
on every invocation that passes the key-presence check, annotation
validation, client and auth setup, reference parsing and the
image-details lookup, `getPrivateKeyPass` is called — before key
classification and regardless of whether anything needs decrypting. -/
theorem c3_amended_eager_passphrase (a : ImageSign) (imageName : String)
    (env : Env) (r : Ref) (d : ImageDetails)
    (hk : ¬a.key = "")
    (hval : generateSelector env.labelComplaints a.anns = .ok ())
    (hc : env.createDefault = .ok ())
    (hauth : env.getAuth = .ok ())
    (href : env.parseRef = some r)
    (hdet : env.imageDetails = .ok d) :
    Event.calledGetPass ∈ (run a imageName env).2 := by
  simp only [run, if_neg hk, hval, hc, hauth, href, hdet]
  cases hp : getPrivateKeyPass env with
  | error e => simp
  | ok pw =>
    rcases hres : resolveSigner a.key (if pw = "" then none else some pw) env
      with ⟨res, tr⟩
    cases res <;> simp [hres]

theorem c3_amended_witness :
    Event.calledGetPass ∈ (run ⟨"mykey", none⟩ "img" c3Env).2 :=
  c3_amended_eager_passphrase ⟨"mykey", none⟩ "img" c3Env
    ⟨"registry.example/app:v1", "registry.example/app"⟩
    ⟨"sha256:abc", "deadbeefcafe"⟩ (by decide) rfl rfl rfl rfl rfl

/-- C8: on every invocation that reaches annotation assembly, the
default annotation set is keyed on `signedNameOf`, which is the fully
resolved image ID when the parsed reference's string form is a local
reference, and the reference's string form otherwise. -/
theorem c8_signed_identity (a : ImageSign) (imageName : String) (env : Env)
    (r : Ref) (d : ImageDetails) (pw : String) (s : Signer) (tr : List Event)
    (hk : ¬a.key = "")
    (hval : generateSelector env.labelComplaints a.anns = .ok ())
    (hc : env.createDefault = .ok ())
    (hauth : env.getAuth = .ok ())
    (href : env.parseRef = some r)
    (hdet : env.imageDetails = .ok d)
    (hpw : getPrivateKeyPass env = .ok pw)
    (hsig : resolveSigner a.key (if pw = "" then none else some pw) env = (.ok s, tr)) :
    Event.assembled (signedNameOf env r d) ∈ (run a imageName env).2 ∧
    (env.isLocalReference r.str = true → signedNameOf env r d = d.id) ∧
    (env.isLocalReference r.str = false → signedNameOf env r d = r.str) := by
  refine ⟨?_, ?_, ?_⟩
  · simp only [run, if_neg hk, hval, hc, hauth, href, hdet, hpw, hsig]
    simp
  · intro h; simp [signedNameOf, h]
  · intro h; simp [signedNameOf, h]

theorem c8_witness :
    Event.assembled (signedNameOf { baseEnv with isLocalReference := fun n =>
        n = "registry.example/app:v1" }
      ⟨"registry.example/app:v1", "registry.example/app"⟩
      ⟨"sha256:abc", "deadbeefcafe"⟩) ∈
      (run ⟨"mykey", none⟩ "img"
        { baseEnv with isLocalReference := fun n => n = "registry.example/app:v1" }).2 ∧
    signedNameOf { baseEnv with isLocalReference := fun n => n = "registry.example/app:v1" }
      ⟨"registry.example/app:v1", "registry.example/app"⟩
      ⟨"sha256:abc", "deadbeefcafe"⟩ = "deadbeefcafe" := by
  have h := c8_signed_identity ⟨"mykey", none⟩ "img"
    { baseEnv with isLocalReference := fun n => n = "registry.example/app:v1" }
    ⟨"registry.example/app:v1", "registry.example/app"⟩
    ⟨"sha256:abc", "deadbeefcafe"⟩ "" 1 [Event.statted, Event.loadRaw "mykey" none]
    (by decide) rfl rfl rfl rfl rfl rfl rfl
  exact ⟨h.1, h.2.1 (by decide)⟩

/-- Membership in a fold-up of complaint lists over the annotation
entries. -/
theorem mem_collectComplaints (f : String × String → List LabelErrKind)
    (l : List (String × String)) (x : LabelErrKind) :
    x ∈ l.foldr (fun kv acc => f kv ++ acc) [] ↔ ∃ kv ∈ l, x ∈ f kv := by
  induction l with
  | nil => simp
  | cons h t ih => simp [ih]

/-- A list with a member is not empty. -/
theorem isEmpty_false_of_mem {α : Type} {x : α} {l : List α} (h : x ∈ l) :
    l.isEmpty = false := by
  cases l with
  | nil => cases h
  | cons a t => rfl

/-- C5: a structurally invalid annotation key aborts the whole
invocation during validation — the returned error is the annotation
error and the trace is empty, so no signer-construction step ever runs;
complaints of the two filtered categories (value too long, value fails
the pattern) alone never cause rejection. -/
theorem c5_annotation_validation (a : ImageSign) (imageName : String)
    (env : Env) (hk : ¬a.key = "") :
    ((∃ kv ∈ a.anns.getD [], LabelErrKind.keyInvalid ∈ env.labelComplaints kv.1 kv.2) →
      run a imageName env =
        (.err "failed to parse provided annotations: invalid annotation key", [])) ∧
    ((∀ kv ∈ a.anns.getD [], ∀ c ∈ env.labelComplaints kv.1 kv.2,
        c = LabelErrKind.valueTooLong ∨ c = LabelErrKind.valueRegexp) →
      generateSelector env.labelComplaints a.anns = .ok ()) := by
  constructor
  · rintro ⟨kv, hmem, hbad⟩
    have hgs : generateSelector env.labelComplaints a.anns =
        .error "invalid annotation key" := by
      have hcol : LabelErrKind.keyInvalid ∈
          (a.anns.getD []).foldr
            (fun kv acc => env.labelComplaints kv.1 kv.2 ++ acc) [] :=
        (mem_collectComplaints _ _ _).mpr ⟨kv, hmem, hbad⟩
      have hrem : LabelErrKind.keyInvalid ∈
          ((a.anns.getD []).foldr
            (fun kv acc => env.labelComplaints kv.1 kv.2 ++ acc) []).filter
            (fun c => !(c == LabelErrKind.valueTooLong || c == LabelErrKind.valueRegexp)) :=
        List.mem_filter.mpr ⟨hcol, by decide⟩
      have hne := isEmpty_false_of_mem hrem
      simp only [generateSelector, hne]
      rfl
    simp [run, if_neg hk, hgs]
  · intro hall
    have hnone : ((a.anns.getD []).foldr
        (fun kv acc => env.labelComplaints kv.1 kv.2 ++ acc) []).filter
        (fun c => !(c == LabelErrKind.valueTooLong || c == LabelErrKind.valueRegexp)) = [] := by
      apply List.filter_eq_nil_iff.mpr
      intro c hc
      obtain ⟨kv, hkv, hcf⟩ := (mem_collectComplaints _ _ _).mp hc
      rcases hall kv hkv c hcf with h | h <;> simp [h]
    simp only [generateSelector, hnone]
    rfl

/-- Environment for the C5 witness: the key `"/bad"` raises a
structural key complaint; the key `"toolong"` raises only a
value-too-long complaint. -/
def c5Env : Env :=
  { baseEnv with
    labelComplaints := fun k _ =>
      (if k = "/bad" then [LabelErrKind.keyInvalid] else []) ++
        (if k = "toolong" then [LabelErrKind.valueTooLong] else []) }

theorem c5_witness :
    run ⟨"mykey", some [("/bad", "x")]⟩ "img" c5Env =
      (.err "failed to parse provided annotations: invalid annotation key", []) ∧
    generateSelector c5Env.labelComplaints (some [("toolong", "v")]) = .ok () :=
  ⟨(c5_annotation_validation ⟨"mykey", some [("/bad", "x")]⟩ "img" c5Env
      (by decide)).1 ⟨("/bad", "x"), by decide, by decide⟩,
    (c5_annotation_validation ⟨"mykey", some [("toolong", "v")]⟩ "img" c5Env
      (by decide)).2 (by decide)⟩

/-- Writing a key always makes it readable with the written value. -/
theorem mapGet_mapSet_self (m : AnnMap) (k v : String) :
    mapGet (mapSet m k v) k = some v := by
  induction m with
  | nil => simp [mapSet, mapGet]
  | cons p t ih =>
    by_cases h : p.1 = k
    · simp [mapSet, mapGet, h]
    · simp [mapSet, mapGet, h, ih]

/-- Writing one key leaves every other key's value unchanged. -/
theorem mapGet_mapSet_ne (m : AnnMap) (k v k' : String) (h : k' ≠ k) :
    mapGet (mapSet m k v) k' = mapGet m k' := by
  induction m with
  | nil => simp [mapSet, mapGet, Ne.symm h]
  | cons p t ih =>
    by_cases hp : p.1 = k
    · simp [mapSet, mapGet, hp, Ne.symm h]
    · simp [mapSet, mapGet, hp, ih]

/-- A key occurring in no entry reads back as absent. -/
theorem mapGet_eq_none (m : AnnMap) (k : String) (h : ∀ p ∈ m, p.1 ≠ k) :
    mapGet m k = none := by
  induction m with
  | nil => rfl
  | cons p t ih =>
    simp [mapGet, h p (by simp)]
    exact ih fun q hq => h q (by simp [hq])

/-- C7: annotation assembly layers the overrides on top of the default
set with override values winning — looking up any key in the merged set
yields the override value when the key is present in the overrides and
the default value otherwise. -/
theorem c7_merge_lookup (defaults ovs : AnnMap) (k : String)
    (hnd : (ovs.map Prod.fst).Nodup) :
    mapGet (mergeAnns defaults (some ovs)) k =
      match mapGet ovs k with
      | some v => some v
      | none => mapGet defaults k := by
  induction ovs generalizing defaults with
  | nil => simp [mergeAnns, mapGet]
  | cons p t ih =>
    rw [List.map_cons, List.nodup_cons] at hnd
    have hstep : mergeAnns defaults (some (p :: t)) =
        mergeAnns (mapSet defaults p.1 p.2) (some t) := rfl
    rw [hstep, ih _ hnd.2]
    by_cases hk : p.1 = k
    · subst hk
      have hnone : mapGet t p.1 = none :=
        mapGet_eq_none t p.1 fun q hq he =>
          hnd.1 (he ▸ List.mem_map_of_mem Prod.fst hq)
      simp [hnone, mapGet, mapGet_mapSet_self]
    · cases hmt : mapGet t k with
      | some v => simp [mapGet, hk, hmt]
      | none => simp [mapGet, hk, hmt, mapGet_mapSet_ne defaults p.1 p.2 k (Ne.symm hk)]

theorem c7_witness :
    ((([("b", "9"), ("c", "3")] : AnnMap).map Prod.fst).Nodup) ∧
    mapGet (mergeAnns [("a", "1"), ("b", "2")] (some [("b", "9"), ("c", "3")])) "a" = some "1" ∧
    mapGet (mergeAnns [("a", "1"), ("b", "2")] (some [("b", "9"), ("c", "3")])) "b" = some "9" ∧
    mapGet (mergeAnns [("a", "1"), ("b", "2")] (some [("b", "9"), ("c", "3")])) "c" = some "3" := by
  refine ⟨by decide, ?_, ?_, ?_⟩ <;>
    · rw [c7_merge_lookup _ _ _ (by decide)]
      decide

/-- Construction attempts add up over concatenated traces. -/
theorem attempts_append (l1 l2 : List Event) :
    attempts (l1 ++ l2) = attempts l1 + attempts l2 := by
  simp [attempts, List.filter_append]

/-- Imports add up over concatenated traces. -/
theorem imports_append (l1 l2 : List Event) :
    imports (l1 ++ l2) = imports l1 + imports l2 := by
  simp [imports, List.filter_append]

/-- When the initial phase ends in a construction error, its trace
records exactly one construction attempt and no import. -/
theorem initial_constructErr_counts (key : String) (pass : Option String)
    (env : Env) (e : Err) (tr : List Event)
    (h : initialSigner key pass env = (.constructErr e, tr)) :
    attempts tr = 1 ∧ imports tr = 0 := by
  unfold initialSigner at h
  split at h
  · cases h' : env.loadPrivateKey key pass <;> simp [liftLoad, h'] at h
    simp [← h.2, attempts, imports, isAttempt, isImport]
  · split at h
    · split at h
      · simp [InitResult.directErr] at h
      · cases h' : env.signerFromKeyRef key pass <;> simp [liftLoad, h'] at h
        simp [← h.2, attempts, imports, isAttempt, isImport]
    · cases h' : env.loadPrivateKey key pass <;> simp [liftLoad, h'] at h
      simp [← h.2, attempts, imports, isAttempt, isImport]
    · split at h
      · cases h' : env.loadPrivateKey key pass <;> simp [liftLoad, h'] at h
        simp [← h.2, attempts, imports, isAttempt, isImport]
      · simp [InitResult.directErr] at h

/-- C9: when the initial signer construction fails, the key-import
recovery runs exactly when the error message mentions the unsupported
PEM encoding; construction is then retried exactly once on the newly
obtained bytes and passphrase, failures of the import or of the retry
are propagated, and in every case the invocation makes at most two
construction attempts and at most one import; any other construction
error is propagated with no import at all. -/
theorem c9_import_recovery (key : String) (pass : Option String) (env : Env)
    (e : Err) (tr : List Event)
    (h : initialSigner key pass env = (.constructErr e, tr)) :
    (goContains e "unsupported pem type" = false →
      resolveSigner key pass env =
        (.error ("failed to create signer from private key: " ++ e), tr)) ∧
    (goContains e "unsupported pem type" = true →
      (∀ e2, env.importKeyPair key pass = .error e2 →
        resolveSigner key pass env =
          (.error ("failed to import private key: " ++ e2), tr ++ [.imported key])) ∧
      (∀ kb, env.importKeyPair key pass = .ok kb →
        (∀ e3, env.loadPrivateKey kb.privateBytes kb.password = .error e3 →
          resolveSigner key pass env =
            (.error ("failed to create signer from imported private key: " ++ e3),
              tr ++ [.imported key, .loadRaw kb.privateBytes kb.password])) ∧
        (∀ s, env.loadPrivateKey kb.privateBytes kb.password = .ok s →
          resolveSigner key pass env =
            (.ok s, tr ++ [.imported key, .loadRaw kb.privateBytes kb.password])))) ∧
    attempts (resolveSigner key pass env).2 ≤ 2 ∧
    imports (resolveSigner key pass env).2 ≤ 1 := by
  obtain ⟨hat, him⟩ := initial_constructErr_counts key pass env e tr h
  by_cases hc : goContains e "unsupported pem type"
  · cases hi : env.importKeyPair key pass with
    | error e2 =>
      have hres : resolveSigner key pass env =
          (.error ("failed to import private key: " ++ e2), tr ++ [.imported key]) := by
        unfold resolveSigner
        rw [h]
        simp [hc, hi]
      refine ⟨fun hf => absurd hc (by simp [hf]), fun _ => ⟨?_, ?_⟩, ?_, ?_⟩
      · intro e2' he2'
        injection he2' with hh
        subst hh
        exact hres
      · intro kb hkb
        exact Except.noConfusion hkb
      · rw [hres, attempts_append, hat]
        simp [attempts, isAttempt]
      · rw [hres, imports_append, him]
        simp [imports, isImport]
    | ok kb =>
      cases hl : env.loadPrivateKey kb.privateBytes kb.password with
      | error e3 =>
        have hres : resolveSigner key pass env =
            (.error ("failed to create signer from imported private key: " ++ e3),
              tr ++ [.imported key, .loadRaw kb.privateBytes kb.password]) := by
          unfold resolveSigner
          rw [h]
          simp [hc, hi, hl]
        refine ⟨fun hf => absurd hc (by simp [hf]), fun _ => ⟨?_, ?_⟩, ?_, ?_⟩
        · intro e2' he2'
          exact Except.noConfusion he2'
        · intro kb' hkb'
          injection hkb' with hh
          subst hh
          refine ⟨?_, ?_⟩
          · intro e3' he3'
            rw [hl] at he3'
            injection he3' with hh3
            subst hh3
            exact hres
          · intro s hs
            rw [hl] at hs
            cases hs
        · rw [hres, attempts_append, hat]
          simp [attempts, isAttempt]
        · rw [hres, imports_append, him]
          simp [imports, isImport]
      | ok s =>
        have hres : resolveSigner key pass env =
            (.ok s, tr ++ [.imported key, .loadRaw kb.privateBytes kb.password]) := by
          unfold resolveSigner
          rw [h]
          simp [hc, hi, hl]
        refine ⟨fun hf => absurd hc (by simp [hf]), fun _ => ⟨?_, ?_⟩, ?_, ?_⟩
        · intro e2' he2'
          exact Except.noConfusion he2'
        · intro kb' hkb'
          injection hkb' with hh
          subst hh
          refine ⟨?_, ?_⟩
          · intro e3' he3'
            rw [hl] at he3'
            cases he3'
          · intro s' hs'
            rw [hl] at hs'
            injection hs' with hhs
            subst hhs
            exact hres
        · rw [hres, attempts_append, hat]
          simp [attempts, isAttempt]
        · rw [hres, imports_append, him]
          simp [imports, isImport]
  · have hres : resolveSigner key pass env =
        (.error ("failed to create signer from private key: " ++ e), tr) := by
      unfold resolveSigner
      rw [h]
      simp [hc]
    refine ⟨fun _ => hres, fun ht => absurd ht hc, ?_, ?_⟩
    · rw [hres]
      simp [hat]
    · rw [hres]
      simp [him]

/-- Environment for the C9 witness: the raw load of `"badkey"` fails
with an unsupported-PEM message, the import succeeds, and the retried
load on the imported bytes succeeds. -/
def c9Env : Env :=
  { baseEnv with
    loadPrivateKey := fun b _ =>
      if b = "badkey" then .error "loading: unsupported pem type: FOO" else .ok 5
    importKeyPair := fun _ _ => .ok ⟨"imported-bytes", none⟩ }

theorem c9_witness :
    initialSigner "badkey" none c9Env =
      (InitResult.constructErr "loading: unsupported pem type: FOO",
        [Event.statted, Event.loadRaw "badkey" none]) ∧
    resolveSigner "badkey" none c9Env =
      (Except.ok 5,
        [Event.statted, Event.loadRaw "badkey" none,
          Event.imported "badkey", Event.loadRaw "imported-bytes" none]) := by
  refine ⟨by decide, ?_⟩
  have h := c9_import_recovery "badkey" none c9Env
    "loading: unsupported pem type: FOO"
    [Event.statted, Event.loadRaw "badkey" none] (by decide)
  exact ((h.2.1 (by decide)).2 ⟨"imported-bytes", none⟩ rfl).2 5 rfl

end ImageSignModel
